import Mathlib

/-!
Verification development for the signature-verification gateway of the
trusted-agent-protocol repository (the cdn-proxy Express server).

Modelling conventions:
* JavaScript strings are modelled as `List Char` (sequences of Unicode scalar
  values).  JavaScript counts string lengths in UTF-16 code units; for strings
  of characters in the basic multilingual plane the two coincide, and all
  wire-format data handled by the gateway is ASCII.
* `String.prototype.toLowerCase` is modelled by ASCII lowercasing
  (`Char.toLower`); the gateway only compares against ASCII literals.
* Machine integers are `Nat`; JavaScript's `a - b < ttl` comparisons on
  `Date.now()` values coincide with truncated `Nat` subtraction, because a
  negative JavaScript difference and a truncated-to-zero `Nat` difference are
  both below the positive TTL constants.
* Network I/O (the axios fetch to the agent registry) and cryptographic
  verification (`crypto.verify` / `crypto.createVerify`) are modelled as
  oracle parameters of the per-request step function; everything else is
  translated from the source.
-/

set_option maxRecDepth 10000

namespace TapGateway

/-- The character class removed by the first replace of `sanitizeLogOutput`:
the JavaScript regex `[\x00-\x1F\x7F-\x9F]` (C0 controls, DEL, C1 controls). -/
def isControlChar (c : Char) : Bool :=
  c.toNat ≤ 31 || (127 ≤ c.toNat && c.toNat ≤ 159)

/-- JavaScript whitespace: the character class of the regex `\s` (which is the
same set trimmed by `String.prototype.trim`): tab, line feed, vertical tab,
form feed, carriage return, space, NBSP, and the Unicode space separators,
line/paragraph separators and BOM. -/
def isJsWs (c : Char) : Bool :=
  c.toNat = 9 || c.toNat = 10 || c.toNat = 11 || c.toNat = 12 || c.toNat = 13 ||
  c.toNat = 32 || c.toNat = 160 || c.toNat = 0x1680 ||
  (0x2000 ≤ c.toNat && c.toNat ≤ 0x200A) ||
  c.toNat = 0x2028 || c.toNat = 0x2029 || c.toNat = 0x202F ||
  c.toNat = 0x205F || c.toNat = 0x3000 || c.toNat = 0xFEFF

/-- One pass of the JavaScript replace `/\s+/g → ' '`: every maximal run of
whitespace characters is replaced by a single space.  The fuel argument is an
upper bound on the recursion depth; each step consumes at least one character,
so fuel `l.length + 1` never runs out. -/
def collapseWs : Nat → List Char → List Char
  | 0, _ => []
  | _ + 1, [] => []
  | fuel + 1, c :: rest =>
    if isJsWs c then ' ' :: collapseWs fuel (rest.dropWhile isJsWs)
    else c :: collapseWs fuel rest

/-- `String.prototype.trim`: drop JavaScript whitespace from both ends. -/
def jsTrim (l : List Char) : List Char :=
  ((l.dropWhile isJsWs).reverse.dropWhile isJsWs).reverse

/-- `sanitizeLogOutput` (cdn-proxy server, lines 73-89), on string inputs.
The source first stringifies non-string inputs (`null`/`undefined` become
`"[null]"`); the claims quantify over string inputs.  Steps, in source order:
remove control characters; replace `[\r\n\t]` by spaces (a no-op after the
first step, kept for faithfulness); collapse whitespace runs to single
spaces; trim; truncate with `substring(0, 200)`. -/
def sanitizeLogOutput (input : List Char) : List Char :=
  let s1 := input.filter (fun c => ! isControlChar c)
  let s2 := s1.map (fun c =>
    if c.toNat = 13 || c.toNat = 10 || c.toNat = 9 then ' ' else c)
  let s3 := collapseWs (s2.length + 1) s2
  let s4 := jsTrim s3
  s4.take 200

/-- The value interpolated unsanitised into the route-policy middleware's
header log line (cdn-proxy server, line 641):
`Object.keys(req.headers).join(', ')`. -/
def headersLogValue (names : List (List Char)) : List Char :=
  List.intercalate ((", ").toList) names

theorem mem_collapseWs {c : Char} :
    ∀ (fuel : Nat) (l : List Char), c ∈ collapseWs fuel l →
      c = ' ' ∨ (c ∈ l ∧ isJsWs c = false) := by
  intro fuel
  induction fuel with
  | zero => intro l h; simp [collapseWs] at h
  | succ n ih =>
    intro l h
    cases l with
    | nil => simp [collapseWs] at h
    | cons d rest =>
      rw [show collapseWs (n + 1) (d :: rest)
            = if isJsWs d then ' ' :: collapseWs n (rest.dropWhile isJsWs)
              else d :: collapseWs n rest from rfl] at h
      by_cases hws : isJsWs d
      · rw [if_pos hws] at h
        rcases List.mem_cons.mp h with h | h
        · exact Or.inl h
        · rcases ih _ h with h' | ⟨hmem, hni⟩
          · exact Or.inl h'
          · exact Or.inr ⟨List.mem_cons_of_mem _
              ((rest.dropWhile_sublist isJsWs).mem hmem), hni⟩
      · rw [if_neg hws] at h
        rcases List.mem_cons.mp h with h | h
        · subst h
          exact Or.inr ⟨List.mem_cons_self _ _, by simpa using hws⟩
        · rcases ih _ h with h' | ⟨hmem, hni⟩
          · exact Or.inl h'
          · exact Or.inr ⟨List.mem_cons_of_mem _ hmem, hni⟩

theorem mem_jsTrim {c : Char} {l : List Char} (h : c ∈ jsTrim l) : c ∈ l := by
  unfold jsTrim at h
  rw [List.mem_reverse] at h
  have h1 := (List.dropWhile_sublist (l := (l.dropWhile isJsWs).reverse) isJsWs).mem h
  rw [List.mem_reverse] at h1
  exact (List.dropWhile_sublist isJsWs).mem h1

theorem sanitize_mem {c : Char} {s : List Char} (h : c ∈ sanitizeLogOutput s) :
    c = ' ' ∨ (isControlChar c = false ∧ isJsWs c = false) := by
  unfold sanitizeLogOutput at h
  have h1 := mem_jsTrim (List.mem_of_mem_take h)
  rcases mem_collapseWs _ _ h1 with h2 | ⟨h2, hni⟩
  · exact Or.inl h2
  · rcases List.mem_map.mp h2 with ⟨d, hd, hdc⟩
    by_cases hnl : d.toNat = 13 || d.toNat = 10 || d.toNat = 9
    · simp only [hnl, if_pos] at hdc
      exact Or.inl hdc.symm
    · simp only [hnl, if_neg, Bool.not_eq_true] at hdc
      subst hdc
      exact Or.inr ⟨(List.mem_filter.mp hd).2 |> (by simpa using ·), hni⟩

theorem sanitize_length_le (s : List Char) :
    (sanitizeLogOutput s).length ≤ 200 := by
  unfold sanitizeLogOutput
  exact List.length_take_le _ _

/-! ## JavaScript values and the RFC 9421 envelope parser -/

/-- The JavaScript values flowing through the gateway's envelope handling:
attribute values are either unquoted digit runs (`parseInt` → number) or
quoted strings, and absent object properties are `undefined`. -/
inductive JVal where
  | str (s : List Char)
  | num (n : Nat)
  | undefined
deriving DecidableEq

/-- JavaScript truthiness for the values above: `undefined`, `0` and the
empty string are falsy. -/
def jvTruthy : JVal → Bool
  | .str s => ! s.isEmpty
  | .num n => n ≠ 0
  | .undefined => false

/-- Digit run to number, as `parseInt` on a string of decimal digits. -/
def digitsToNat (l : List Char) : Nat :=
  l.foldl (fun a c => a * 10 + (c.toNat - 48)) 0

/-- Partial model of JavaScript `ToNumber` on strings, used when a relational
operator compares a string with a number: JavaScript trims whitespace and
parses a numeric literal (NaN comparisons are false).  Only unsigned decimal
digit strings are modelled; every theorem that depends on `created`/`expires`
comparisons restricts those attributes to be numeric or absent (the wire
format writes them as unquoted integers), so this partial model is never
load-bearing. -/
def strToNumQ (s : List Char) : Option Nat :=
  let t := jsTrim s
  if ! t.isEmpty && t.all Char.isDigit then some (digitsToNat t) else none

/-- JavaScript `v > m` where `m` is a number (`signatureData.created > now + 60`). -/
def jvGtNum (v : JVal) (m : Nat) : Bool :=
  match v with
  | .num n => m < n
  | .str s => match strToNumQ s with
    | some x => m < x
    | none => false
  | .undefined => false

/-- JavaScript `v < m` where `m` is a number (`signatureData.expires < now`). -/
def jvLtNum (v : JVal) (m : Nat) : Bool :=
  match v with
  | .num n => n < m
  | .str s => match strToNumQ s with
    | some x => x < m
    | none => false
  | .undefined => false

/-- The character class of the JavaScript regex `\w`: `[A-Za-z0-9_]`. -/
def isWordChar (c : Char) : Bool :=
  c.isAlpha || c.isDigit || c = '_'

/-- The matcher of the regex `.` (any character except a line terminator). -/
def dotChar (c : Char) : Bool :=
  c.toNat ≠ 10 && c.toNat ≠ 13 && c.toNat ≠ 0x2028 && c.toNat ≠ 0x2029

/-- Backtracking of `\s*` before `.+`: starting from the greedy position `p`
(just past the leading whitespace), find the largest position at which `.`
can match. -/
def findDotStart (l : List Char) : Nat → Option Nat
  | 0 => match l.get? 0 with
    | some c => if dotChar c then some 0 else none
    | none => none
  | p + 1 => match l.get? (p + 1) with
    | some c => if dotChar c then some (p + 1) else findDotStart l p
    | none => findDotStart l p

/-- Match of the regex tail `\s*(.+)` against `l`, returning the capture of
`(.+)` (greedy, with backtracking of `\s*` when the remainder would be empty
or start with a line terminator). -/
def matchWsDotPlus (l : List Char) : Option (List Char) :=
  match findDotStart l (l.takeWhile isJsWs).length with
  | some p => some ((l.drop p).takeWhile dotChar)
  | none => none

/-- One attempt of the regex `/sig2=\(([^)]+)\);\s*(.+)/` anchored at the head
of `l`: the literal `sig2=(`, a nonempty run of non-`)` characters, the
literal `);`, then `\s*(.+)`.  Returns the two captures. -/
def tryEnvAt (l : List Char) : Option (List Char × List Char) :=
  if l.take 6 = ("sig2=(").toList then
    let r := l.drop 6
    let g1 := r.takeWhile (fun c => c ≠ ')')
    if g1.isEmpty then none
    else
      match r.dropWhile (fun c => c ≠ ')') with
      | ')' :: ';' :: r3 => (matchWsDotPlus r3).map (fun g2 => (g1, g2))
      | _ => none
  else none

/-- Unanchored search of `/sig2=\(([^)]+)\);\s*(.+)/` (the regex engine tries
every start position from the left), as performed by
`signatureInput.match(...)` in `parseRFC9421SignatureInput`. -/
def findEnvMatch : List Char → Option (List Char × List Char)
  | [] => none
  | c :: rest =>
    match tryEnvAt (c :: rest) with
    | some r => some r
    | none => findEnvMatch rest

/-- JavaScript `String.prototype.split(/\s+/)`: pieces between maximal
whitespace runs, keeping empty pieces at the ends.  Fuel-based recursion; each
step consumes at least one character. -/
def splitWsF : Nat → List Char → List (List Char)
  | 0, _ => []
  | fuel + 1, l =>
    let t := l.takeWhile (fun c => ! isJsWs c)
    let r := l.dropWhile (fun c => ! isJsWs c)
    if r.isEmpty then [t] else t :: splitWsF fuel (r.dropWhile isJsWs)

def splitWs (l : List Char) : List (List Char) :=
  splitWsF (l.length + 1) l

/-- One attempt of the regex `/(\w+)=("[^"]*"|\d+)/` anchored at the head of
`l`, as used by the `matchAll` over the attribute string: a maximal word run,
the literal `=`, then either a quoted string (quotes stripped by the caller)
or a digit run (`parseInt` by the caller).  Returns the parsed attribute and
the remainder after the match. -/
def tryAttrAt (l : List Char) : Option ((List Char × JVal) × List Char) :=
  let k := l.takeWhile isWordChar
  if k.isEmpty then none
  else
    match l.drop k.length with
    | '=' :: r =>
      match r with
      | '"' :: r2 =>
        let v := r2.takeWhile (fun c => c ≠ '"')
        (match r2.drop v.length with
         | '"' :: r3 => some ((k, .str v), r3)
         | _ => none)
      | _ =>
        let d := r.takeWhile Char.isDigit
        if d.isEmpty then none else some ((k, .num (digitsToNat d)), r.drop d.length)
    | _ => none

/-- The `matchAll` scan over the attribute string: successive leftmost matches
of `/(\w+)=("[^"]*"|\d+)/g`, each continuing after the previous match.
Fuel-based; each step consumes at least one character. -/
def scanAttrsF : Nat → List Char → List (List Char × JVal)
  | 0, _ => []
  | _ + 1, [] => []
  | fuel + 1, c :: rest =>
    match tryAttrAt (c :: rest) with
    | some (kv, r') => kv :: scanAttrsF fuel r'
    | none => scanAttrsF fuel rest

/-- Lookup in the `attributes` object: later assignments overwrite earlier
ones, so the last occurrence of a key wins; a missing key is `undefined`. -/
def attrLookup (attrs : List (List Char × JVal)) (k : List Char) : JVal :=
  match attrs.reverse.find? (fun e => e.1 = k) with
  | some e => e.2
  | none => .undefined

/-- The structured result of `parseRFC9421SignatureInput`. -/
structure SigData where
  params : List (List Char)
  nonce : JVal
  created : JVal
  expires : JVal
  keyId : JVal
  algorithm : JVal
  tag : JVal
deriving DecidableEq

/-- `parseRFC9421SignatureInput` (cdn-proxy server, lines 213-260): match the
envelope regex, split the component list on whitespace and strip quote
characters, scan the attribute string for `key=value` pairs, and return the
named attributes.  Any failure (including a `.match` on a missing header,
handled by the caller) yields `null`. -/
def parseRFC9421SignatureInput (si : List Char) : Option SigData :=
  match findEnvMatch si with
  | none => none
  | some (g1, g2) =>
    let params := (splitWs g1).map
      (fun p => p.filter (fun c => ! (c = '"' || c = Char.ofNat 39)))
    let attrs := scanAttrsF g2.length g2
    some { params := params
           nonce := attrLookup attrs (("nonce").toList)
           created := attrLookup attrs (("created").toList)
           expires := attrLookup attrs (("expires").toList)
           keyId := attrLookup attrs (("keyId").toList)
           algorithm := attrLookup attrs (("alg").toList)
           tag := attrLookup attrs (("tag").toList) }

/-- `validateKeyId` (cdn-proxy server, lines 65-71): the key id must be a
string of 1 to 100 characters drawn from `[A-Za-z0-9._-]`. -/
def validateKeyId (v : JVal) : Bool :=
  match v with
  | .str s =>
    ! s.isEmpty && s.length ≤ 100 &&
    s.all (fun c => c.isAlpha || c.isDigit || c = '.' || c = '_' || c = '-')
  | _ => false

/-- One attempt of the regex `/sig2=:([^:]+):/` anchored at the head of `l`:
the literal `sig2=:`, a nonempty run of non-`:` characters, then `:`. -/
def trySigAt (l : List Char) : Option (List Char) :=
  if l.take 6 = ("sig2=:").toList then
    let r := l.drop 6
    let g := r.takeWhile (fun c => c ≠ ':')
    if g.isEmpty then none
    else
      match r.dropWhile (fun c => c ≠ ':') with
      | ':' :: _ => some g
      | _ => none
  else none

/-- Unanchored search of `/sig2=:([^:]+):/`, as performed on the `signature`
header (cdn-proxy server, line 540); the capture is the base64 payload. -/
def extractSignatureB64 : List Char → Option (List Char)
  | [] => none
  | c :: rest =>
    match trySigAt (c :: rest) with
    | some g => some g
    | none => extractSignatureB64 rest

/-! ## Requests and the base-string builder -/

/-- An inbound HTTP request as Express hands it to the middleware: method,
`req.url` (path plus query string), and the header map.  Node lowercases
incoming header names, so the association list is keyed by lowercase names. -/
structure Request where
  method : List Char
  url : List Char
  headers : List (List Char × List Char)
deriving DecidableEq

/-- ASCII lowercasing, modelling `String.prototype.toLowerCase` on the ASCII
data the gateway compares against. -/
def lowerL (l : List Char) : List Char :=
  l.map Char.toLower

/-- `req.get(name)` / `req.headers[name]`: case-insensitive header lookup
(Node stores the names lowercased). -/
def getHeader (req : Request) (name : List Char) : Option (List Char) :=
  (req.headers.find? (fun h => h.1 = lowerL name)).map (fun h => h.2)

/-- An `Option` header value regarded as a JavaScript value. -/
def optJv : Option (List Char) → JVal
  | some s => .str s
  | none => .undefined

/-- A present, nonempty header value, as tested by the JavaScript truthiness
of `req.headers[...]`. -/
def optTruthy : Option (List Char) → Bool
  | some s => ! s.isEmpty
  | none => false

/-- The `requestData` object built for verification (cdn-proxy server, lines
510-515): `authority` and `host` are `req.get('host')` (the fallback
`req.headers.host` reads the same header), `path` is `req.url`, `contentType`
is `req.get('content-type')`. -/
structure RequestData where
  authority : JVal
  path : JVal
  contentType : JVal
  host : JVal
deriving DecidableEq

def mkRequestData (req : Request) : RequestData :=
  { authority := optJv (getHeader req (("host").toList))
    path := .str req.url
    contentType := optJv (getHeader req (("content-type").toList))
    host := optJv (getHeader req (("host").toList)) }

/-- String interpolation `${v}` of a JavaScript value into a template
literal. -/
def jvDisplay : JVal → List Char
  | .str s => s
  | .num n => Nat.toDigits 10 n
  | .undefined => ("undefined").toList

/-- JavaScript `a || b`. -/
def jvOr (a b : JVal) : JVal :=
  if jvTruthy a then a else b

/-- Own property names of the `requestData` object literal. -/
def rdFieldNames : List (List Char) :=
  [("authority").toList, ("path").toList, ("contentType").toList, ("host").toList]

/-- Members inherited from `Object.prototype`, which a computed property
access `requestData[param]` also reaches.  Their values are engine-defined
functions or objects — all truthy — modelled as an opaque nonempty string. -/
def protoPropNames : List (List Char) :=
  [("constructor").toList, ("hasOwnProperty").toList, ("isPrototypeOf").toList,
   ("propertyIsEnumerable").toList, ("toLocaleString").toList, ("toString").toList,
   ("valueOf").toList, ("__proto__").toList, ("__defineGetter__").toList,
   ("__defineSetter__").toList, ("__lookupGetter__").toList, ("__lookupSetter__").toList]

/-- The computed property access `requestData[param]` in the builder's
default case: own properties first, then the `Object.prototype` members,
otherwise `undefined`. -/
def rdLookup (rd : RequestData) (p : List Char) : JVal :=
  if p = ("authority").toList then rd.authority
  else if p = ("path").toList then rd.path
  else if p = ("contentType").toList then rd.contentType
  else if p = ("host").toList then rd.host
  else if p ∈ protoPropNames then .str (("[Object.prototype member]").toList)
  else .undefined

/-- One covered component's line in `buildRFC9421SignatureString` (cdn-proxy
server, lines 267-288): the four `switch` cases in source order, then the
default case, which pushes a line only when `requestData[param]` is truthy
and never consults the request's headers. -/
def componentLine (rd : RequestData) (p : List Char) : Option (List Char) :=
  if p = ("@authority").toList then
    some ((("\"@authority\": ").toList) ++ jvDisplay rd.authority)
  else if p = ("@path").toList then
    some ((("\"@path\": ").toList) ++ jvDisplay rd.path)
  else if p = ("content-type").toList then
    some ((("\"content-type\": ").toList) ++
      jvDisplay (jvOr rd.contentType (.str (("application/json").toList))))
  else if p = ("host").toList then
    some ((("\"host\": ").toList) ++ jvDisplay (jvOr rd.host rd.authority))
  else
    if jvTruthy (rdLookup rd p) then
      some (('"' :: p ++ (("\": ").toList)) ++ jvDisplay (rdLookup rd p))
    else none

/-- The raw parameter expression appended as the `@signature-params` value
(cdn-proxy server, lines 292-295): the original header with the literal
prefix `sig2=` removed when the header starts with it, otherwise the whole
header text. -/
def sigParamsRaw (siHeader : List Char) : List Char :=
  if List.isPrefixOf (("sig2=").toList) siHeader then siHeader.drop 5
  else siHeader

/-- The final `"@signature-params"` line of the base string. -/
def sigParamsLine (siHeader : List Char) : List Char :=
  (("\"@signature-params\": ").toList) ++ sigParamsRaw siHeader

/-- The loop body of the builder: `components.push(...)` for a resolving
component, nothing otherwise. -/
def pushComponent (rd : RequestData) (acc : List (List Char)) (p : List Char) :
    List (List Char) :=
  match componentLine rd p with
  | some line => acc ++ [line]
  | none => acc

/-- `buildRFC9421SignatureString` (cdn-proxy server, lines 263-307): push one
line per covered component (the default case silently skips components that
do not resolve), append the `@signature-params` line, and join the lines
with `\n`. -/
def buildRFC9421SignatureString (params : List (List Char)) (rd : RequestData)
    (siHeader : List Char) : List Char :=
  let components := params.foldl (pushComponent rd) []
  let components := components ++ [sigParamsLine siHeader]
  List.intercalate ['\n'] components

/-! ## Key cache and registry client -/

/-- The JSON key record fetched from the agent registry.  Fields used only
for logging are omitted; `is_active` is kept as the raw JavaScript value
because only the literal string `"true"` counts as active. -/
structure KeyRecord where
  key_id : JVal
  algorithm : JVal
  is_active : JVal
  public_key : JVal
deriving DecidableEq

/-- Outcome of the axios GET to `<AGENT_REGISTRY_URL>/keys/<keyId>`, as an
oracle input: a parsed 200 body, a non-200 status (axios throws for non-2xx,
including 404, and the gateway's `else` branch returns `null` for any other
2xx), or a transport failure (also thrown and caught). -/
inductive FetchResult where
  | success (k : KeyRecord)
  | httpStatus (status : Nat)
  | transportError
deriving DecidableEq

structure CacheEntry where
  key : KeyRecord
  timestamp : Nat
deriving DecidableEq

/-- `CACHE_TTL` (cdn-proxy server, line 153): 5 milliseconds. -/
def CACHE_TTL : Nat := 5

/-- `NONCE_TTL` (cdn-proxy server, line 157): one hour in milliseconds. -/
def NONCE_TTL : Nat := 3600000

def cacheGet (m : List (List Char × CacheEntry)) (k : List Char) : Option CacheEntry :=
  (m.find? (fun e => e.1 = k)).map (fun e => e.2)

def cacheDelete (m : List (List Char × CacheEntry)) (k : List Char) :
    List (List Char × CacheEntry) :=
  m.filter (fun e => ¬ e.1 = k)

/-- `Map.prototype.set`: replace any entry under the key. -/
def cacheSet (m : List (List Char × CacheEntry)) (k : List Char) (v : CacheEntry) :
    List (List Char × CacheEntry) :=
  (k, v) :: cacheDelete m k

structure GetResult where
  result : Option KeyRecord
  cache : List (List Char × CacheEntry)
  usedCache : Bool
deriving DecidableEq

/-- The fetch-and-cache tail of `getKeyById`: on a 200, cache `{key, now}`
and return the record; on any failure return `null` without caching. -/
def fetchInto (cache : List (List Char × CacheEntry)) (ck : List Char)
    (nowMs : Nat) (fetch : FetchResult) : GetResult :=
  match fetch with
  | .success k => ⟨some k, cacheSet cache ck ⟨k, nowMs⟩, false⟩
  | .httpStatus _ => ⟨none, cache, false⟩
  | .transportError => ⟨none, cache, false⟩

/-- `getKeyById` (cdn-proxy server, lines 170-208): serve a cache entry
younger than `CACHE_TTL`, otherwise evict any stale entry and fetch; the
JavaScript freshness test `Date.now() - cached.timestamp < CACHE_TTL`
coincides with truncated `Nat` subtraction. -/
def getKeyById (cache : List (List Char × CacheEntry)) (keyId : List Char)
    (nowMs : Nat) (fetch : FetchResult) : GetResult :=
  let ck := (("key:").toList) ++ keyId
  match cacheGet cache ck with
  | some entry =>
    if nowMs - entry.timestamp < CACHE_TTL then ⟨some entry.key, cache, true⟩
    else fetchInto (cacheDelete cache ck) ck nowMs fetch
  | none => fetchInto cache ck nowMs fetch

/-! ## Replay guard -/

/-- Membership test `nonceCache.has(nonce)`; the `Map` is modelled as an
association list from nonce values to first-seen timestamps. -/
def nonceHas (tbl : List (JVal × Nat)) (n : JVal) : Bool :=
  tbl.any (fun e => e.1 = n)

/-- The check-and-insert of `verifySignature` (cdn-proxy server, lines
493-507): a present nonce is a replay (`false`) and leaves the table
untouched; otherwise record `{nonce → now}` and report fresh (`true`). -/
def checkAndRecord (tbl : List (JVal × Nat)) (n : JVal) (nowMs : Nat) :
    Bool × List (JVal × Nat) :=
  if nonceHas tbl n then (false, tbl) else (true, (n, nowMs) :: tbl)

/-- The periodic sweep (cdn-proxy server, lines 160-167): delete entries with
`now - timestamp > NONCE_TTL`. -/
def sweepNonces (tbl : List (JVal × Nat)) (nowMs : Nat) : List (JVal × Nat) :=
  tbl.filter (fun e => ¬ nowMs - e.2 > NONCE_TTL)

/-- A serial history of interactions with the nonce table: submissions of one
fixed nonce, interleaved with runs of the sweep task. -/
inductive NonceEvent where
  | submit (t : Nat)
  | sweep (t : Nat)
deriving DecidableEq

/-- Run a serial history for one nonce, returning the Fresh/Replay verdict of
each submission in order. -/
def runNonceTrace (n : JVal) : List NonceEvent → List (JVal × Nat) → List Bool
  | [], _ => []
  | .submit t :: evs, tbl =>
    let r := checkAndRecord tbl n t
    r.1 :: runNonceTrace n evs r.2
  | .sweep t :: evs, tbl => runNonceTrace n evs (sweepNonces tbl t)

def countSubmits (evs : List NonceEvent) : Nat :=
  evs.countP (fun e => match e with
    | .submit _ => true
    | .sweep _ => false)

/-! ## The gate: route policy and verification pipeline -/

/-- Mutable gateway state: the nonce table and the key cache. -/
structure GwState where
  nonceTable : List (JVal × Nat)
  keyCache : List (List Char × CacheEntry)
deriving DecidableEq

/-- What the gateway does with a request: hand it to the proxy middlewares
(the upstream receives it) or answer it itself with the given status. -/
inductive Outcome where
  | forward
  | respond (status : Nat)
deriving DecidableEq

structure StepResult where
  outcome : Outcome
  state : GwState
deriving DecidableEq

/-- Oracle for `verifyRSASignature` / `verifyEd25519Signature`: given the
lowercased algorithm name, the registry's public key, the extracted base64
signature and the reconstructed base string, does the cryptographic
verification succeed?  (Both source functions catch their own exceptions and
return a boolean.) -/
def CryptoOracle : Type :=
  List Char → JVal → List Char → List Char → Bool

/-- `${keyId}` stringification used for the registry URL and cache key; the
pipeline only reaches it after `validateKeyId`, so the value is a string. -/
def keyStr (v : JVal) : List Char :=
  match v with
  | .str s => s
  | .num n => Nat.toDigits 10 n
  | .undefined => ("undefined").toList

/-- `verifySignature` (cdn-proxy server, lines 397-603), translated in source
order.  Failure responses carry the state as updated so far: the key cache is
already updated after the fetch, and the nonce is already recorded in every
branch at or after line 506 — including the 400 unsupported-algorithm branch
and the 500 internal-error branch reached when `signatureData.algorithm` is
not a string (the `.toLowerCase()` TypeError is caught at line 598). -/
def verifySignature (req : Request) (st : GwState) (nowMs : Nat)
    (fetch : FetchResult) (crypto : CryptoOracle) : StepResult :=
  let siOpt := getHeader req (("signature-input").toList)
  let sigOpt := getHeader req (("signature").toList)
  match (match siOpt with
         | none => none
         | some si => parseRFC9421SignatureInput si) with
  | none => ⟨.respond 403, st⟩
  | some sd =>
    if ¬ validateKeyId sd.keyId then ⟨.respond 403, st⟩
    else if ¬ jvTruthy sd.keyId ∨ ¬ optTruthy siOpt ∨ ¬ optTruthy sigOpt then
      ⟨.respond 403, st⟩
    else
      let gr := getKeyById st.keyCache (keyStr sd.keyId) nowMs fetch
      let st1 : GwState := ⟨st.nonceTable, gr.cache⟩
      match gr.result with
      | none => ⟨.respond 403, st1⟩
      | some k =>
        if ¬ k.is_active = JVal.str (("true").toList) then ⟨.respond 403, st1⟩
        else
          let now := nowMs / 1000
          if jvTruthy sd.created ∧ jvGtNum sd.created (now + 60) then ⟨.respond 403, st1⟩
          else if jvTruthy sd.expires ∧ jvLtNum sd.expires now then ⟨.respond 403, st1⟩
          else if ¬ jvTruthy sd.nonce then ⟨.respond 403, st1⟩
          else if nonceHas st1.nonceTable sd.nonce then ⟨.respond 403, st1⟩
          else
            let st2 : GwState := ⟨(sd.nonce, nowMs) :: st1.nonceTable, st1.keyCache⟩
            let baseString := buildRFC9421SignatureString sd.params
              (mkRequestData req) (siOpt.getD [])
            match extractSignatureB64 (sigOpt.getD []) with
            | none => ⟨.respond 403, st2⟩
            | some b =>
              match sd.algorithm with
              | .str a =>
                let alg := lowerL a
                if alg = ("rsa-pss-sha256").toList then
                  if crypto alg k.public_key b baseString then ⟨.forward, st2⟩
                  else ⟨.respond 403, st2⟩
                else if alg = ("ed25519").toList then
                  if crypto alg k.public_key b baseString then ⟨.forward, st2⟩
                  else ⟨.respond 403, st2⟩
                else ⟨.respond 400, st2⟩
              | _ => ⟨.respond 500, st2⟩

/-- Does the request hit the `/test-proxy` endpoint registered before the
route-policy middleware (cdn-proxy server, line 608)?  Express matches GET
(and HEAD) on the case-insensitively compared pathname, ignoring the query
string and an optional trailing slash. -/
def testProxyHit (req : Request) : Bool :=
  decide ((req.method = ("GET").toList ∨ req.method = ("HEAD").toList) ∧
    (lowerL (req.url.takeWhile (fun c => c ≠ '?')) = ("/test-proxy").toList ∨
     lowerL (req.url.takeWhile (fun c => c ≠ '?')) = ("/test-proxy/").toList))

/-- The route policy's gating test (cdn-proxy server, lines 643-645):
`req.url.toLowerCase().startsWith('/product/')`. -/
def gatedPath (req : Request) : Bool :=
  List.isPrefixOf (("/product/").toList) (lowerL req.url)

/-- Both wire headers present and nonempty (cdn-proxy server, line 644). -/
def hasWireHeaders (req : Request) : Bool :=
  optTruthy (getHeader req (("signature-input").toList)) &&
  optTruthy (getHeader req (("signature").toList))

/-- One request through the gateway app (cdn-proxy server): the
`/test-proxy` endpoint answers directly; then the route-policy middleware
(lines 639-663) forwards non-gated paths, rejects gated paths without the
wire headers with 403, and otherwise runs `verifySignature`; admitted and
non-gated requests fall through to the proxy middlewares. -/
def gateway (req : Request) (st : GwState) (nowMs : Nat)
    (fetch : FetchResult) (crypto : CryptoOracle) : StepResult :=
  if testProxyHit req then ⟨.respond 200, st⟩
  else if gatedPath req then
    if ¬ hasWireHeaders req then ⟨.respond 403, st⟩
    else verifySignature req st nowMs fetch crypto
  else ⟨.forward, st⟩

/-- The envelope parsed from the request's `signature-input` header (an
absent header fails the parse, as the thrown `.match` on `undefined` does). -/
def envelopeOf (req : Request) : Option SigData :=
  match getHeader req (("signature-input").toList) with
  | none => none
  | some si => parseRFC9421SignatureInput si

/-- The conjunction of the pipeline checks, stated independently of the
orchestrator's control flow: wire headers present, envelope parses, key id
valid, key found, key active, temporal window respected, nonce present and
fresh, signature format extractable, and algorithm-dispatched cryptographic
verification successful. -/
def pipelineChecks (req : Request) (st : GwState) (nowMs : Nat)
    (fetch : FetchResult) (crypto : CryptoOracle) : Bool :=
  hasWireHeaders req &&
  (match envelopeOf req with
   | none => false
   | some sd =>
     validateKeyId sd.keyId &&
     (match (getKeyById st.keyCache (keyStr sd.keyId) nowMs fetch).result with
      | none => false
      | some k =>
        decide (k.is_active = JVal.str (("true").toList)) &&
        ! (jvTruthy sd.created && jvGtNum sd.created (nowMs / 1000 + 60)) &&
        ! (jvTruthy sd.expires && jvLtNum sd.expires (nowMs / 1000)) &&
        jvTruthy sd.nonce &&
        ! nonceHas st.nonceTable sd.nonce &&
        (match extractSignatureB64 ((getHeader req (("signature").toList)).getD []) with
         | none => false
         | some b =>
           match sd.algorithm with
           | .str a =>
             if lowerL a = ("rsa-pss-sha256").toList ∨ lowerL a = ("ed25519").toList then
               crypto (lowerL a) k.public_key b
                 (buildRFC9421SignatureString sd.params (mkRequestData req)
                   (((getHeader req (("signature-input").toList))).getD []))
             else false
           | _ => false)))

/-- The algorithm dispatch at the end of the pipeline (cdn-proxy server,
lines 556-602), as a function of the state reached after the nonce was
recorded: supported algorithms go to the crypto verdict, any other string is
a 400, and a non-string `algorithm` raises the caught TypeError, a 500. -/
def dispatchResult (crypto : CryptoOracle) (sd : SigData) (k : KeyRecord)
    (b : List Char) (base : List Char) (st2 : GwState) : StepResult :=
  match sd.algorithm with
  | .str a =>
    if lowerL a = ("rsa-pss-sha256").toList ∨ lowerL a = ("ed25519").toList then
      if crypto (lowerL a) k.public_key b base then ⟨.forward, st2⟩
      else ⟨.respond 403, st2⟩
    else ⟨.respond 400, st2⟩
  | _ => ⟨.respond 500, st2⟩

/-- What the specification's words describe for the base-string builder's
default case: a case-insensitive lookup of the component name in the live
request's headers, omitting the line when the header is absent.  Stated for
comparison with the builder translated from the source. -/
def specHeaderComponentLine (req : Request) (p : List Char) : Option (List Char) :=
  (getHeader req p).map (fun v => ('"' :: p ++ (("\": ").toList)) ++ v)

/-! ## Concrete fixtures used by witnesses and counterexamples -/

/-- A crypto oracle that accepts (models a cryptographically valid
signature). -/
def exOracleTrue : CryptoOracle := fun _ _ _ _ => true

/-- Fresh gateway state: empty nonce table and key cache. -/
def exState0 : GwState := ⟨[], []⟩

/-- An active Ed25519 key record as the registry would return it. -/
def exKeyEd : KeyRecord :=
  ⟨.str (("agent-key-1").toList), .str (("ed25519").toList),
   .str (("true").toList), .str (("PUBKEY").toList)⟩

/-- A gated request on `/product/42` carrying the two wire headers. -/
def mkExReq (si : List Char) (sig : List Char) : Request :=
  ⟨("GET").toList, ("/product/42").toList,
   [(("host").toList, ("shop.example:3001").toList),
    (("signature-input").toList, si),
    (("signature").toList, sig)]⟩

def exSigGood : List Char := ("sig2=:QUJD:").toList

def exReqTestProxy : Request := ⟨("GET").toList, ("/test-proxy").toList, []⟩

def exSiHmac : List Char :=
  ("sig2=(\"@authority\" \"@path\"); created=999; expires=2000; keyId=\"agent-key-1\"; alg=\"hmac-sha256\"; nonce=\"n-2\"").toList

def exReqHmac : Request := mkExReq exSiHmac exSigGood

/-- The parse of `exSiHmac`. -/
def exSdHmac : SigData :=
  ⟨[("@authority").toList, ("@path").toList], .str (("n-2").toList),
   .num 999, .num 2000, .str (("agent-key-1").toList),
   .str (("hmac-sha256").toList), .undefined⟩

def exSiEd3 : List Char :=
  ("sig2=(\"@authority\" \"@path\"); created=999; expires=2000; keyId=\"agent-key-1\"; alg=\"ed25519\"; nonce=\"n-3\"").toList

def exReqEd3 : Request := mkExReq exSiEd3 exSigGood

/-- The parse of `exSiEd3`. -/
def exSdEd3 : SigData :=
  ⟨[("@authority").toList, ("@path").toList], .str (("n-3").toList),
   .num 999, .num 2000, .str (("agent-key-1").toList),
   .str (("ed25519").toList), .undefined⟩

def exSiC5 : List Char :=
  ("sig2=(\"@authority\" \"@path\"); created=1060; expires=1000; keyId=\"agent-key-1\"; alg=\"ed25519\"; nonce=\"n-5\"").toList

def exReqC5 : Request := mkExReq exSiC5 exSigGood

/-- The parse of `exSiC5`: `created` exceeds `expires` by 60. -/
def exSdC5 : SigData :=
  ⟨[("@authority").toList, ("@path").toList], .str (("n-5").toList),
   .num 1060, .num 1000, .str (("agent-key-1").toList),
   .str (("ed25519").toList), .undefined⟩

def exSiNoAlg : List Char :=
  ("sig2=(\"@authority\" \"@path\"); keyId=\"agent-key-1\"; nonce=\"n-10\"").toList

/-- The parse of `exSiNoAlg`: no `alg` attribute, so `algorithm` is
`undefined`. -/
def exSdNoAlg : SigData :=
  ⟨[("@authority").toList, ("@path").toList], .str (("n-10").toList),
   .undefined, .undefined, .str (("agent-key-1").toList), .undefined, .undefined⟩

/-- The no-`alg` envelope with a well-formed signature header. -/
def exReqNoAlg : Request := mkExReq exSiNoAlg exSigGood

/-- The no-`alg` envelope with a malformed signature header. -/
def exReqNoAlgBadSig : Request := mkExReq exSiNoAlg (("garbage").toList)

/-- A signature-input header on which the unanchored envelope regex matches
mid-string: the text before `sig2=(` survives into the raw
`@signature-params` expression. -/
def exSiX : List Char :=
  ("Xsig2=(\"@authority\" \"foo\"); keyId=\"k1\"; alg=\"ed25519\"; nonce=\"n1\"").toList

def exReqX : Request := mkExReq exSiX exSigGood

/-- A request carrying a `user-agent` header, for the builder claims. -/
def exReqUA : Request :=
  ⟨("GET").toList, ("/product/42").toList,
   [(("host").toList, ("shop.example:3001").toList),
    (("user-agent").toList, ("Mozilla/5.0").toList)]⟩

/-- Twelve client-chosen header names of 18 characters each: their comma-join
is 238 characters long. -/
def exHeaderNames : List (List Char) :=
  [("x-custom-header-01").toList, ("x-custom-header-02").toList,
   ("x-custom-header-03").toList, ("x-custom-header-04").toList,
   ("x-custom-header-05").toList, ("x-custom-header-06").toList,
   ("x-custom-header-07").toList, ("x-custom-header-08").toList,
   ("x-custom-header-09").toList, ("x-custom-header-10").toList,
   ("x-custom-header-11").toList, ("x-custom-header-12").toList]

/-! ## Pipeline lemmas -/

theorem validateKeyId_truthy {v : JVal} (h : validateKeyId v = true) :
    jvTruthy v = true := by
  cases v with
  | str s =>
    simp only [validateKeyId, Bool.and_eq_true] at h
    simpa [jvTruthy] using h.1.1
  | num n => simp [validateKeyId] at h
  | undefined => simp [validateKeyId] at h

/-- The orchestrator forwards exactly when every pipeline check passes (the
request being gated with both wire headers present). -/
theorem verify_forward_iff (req : Request) (st : GwState) (nowMs : Nat)
    (fetch : FetchResult) (crypto : CryptoOracle)
    (hw : hasWireHeaders req = true) :
    ((verifySignature req st nowMs fetch crypto).outcome = .forward) ↔
      (pipelineChecks req st nowMs fetch crypto = true) := by
  rcases hsi : getHeader req (("signature-input").toList) with _ | siv
  · rw [hasWireHeaders, hsi] at hw; simp [optTruthy] at hw
  rcases hsg : getHeader req (("signature").toList) with _ | sgv
  · rw [hasWireHeaders, hsi, hsg] at hw; simp [optTruthy] at hw
  have hw' : (! siv.isEmpty) = true ∧ (! sgv.isEmpty) = true := by
    rw [hasWireHeaders, hsi, hsg] at hw
    simpa [optTruthy, Bool.and_eq_true] using hw
  unfold verifySignature pipelineChecks envelopeOf
  rw [hsi, hsg]
  simp only [Option.getD_some]
  rcases hp : parseRFC9421SignatureInput siv with _ | sd
  · simp [hw, hsi, hsg, hp]
  simp only [hp]
  by_cases hv : validateKeyId sd.keyId
  case neg => simp [hw, hsi, hsg, hv]
  rw [if_neg (by simp [hv])]
  rw [if_neg (by
    simp [validateKeyId_truthy hv, optTruthy, hw'.1, hw'.2])]
  simp only [hw, Bool.true_and, hv, Bool.true_and]
  rcases hgr : (getKeyById st.keyCache (keyStr sd.keyId) nowMs fetch).result with _ | k
  · simp [hgr]
  simp only [hgr]
  by_cases hact : k.is_active = JVal.str (("true").toList)
  case neg =>
    rw [if_pos hact, decide_eq_false hact]
    simp
  rw [if_neg (not_not_intro hact), decide_eq_true hact]
  simp only [Bool.true_and]
  by_cases hcr : (jvTruthy sd.created && jvGtNum sd.created (nowMs / 1000 + 60)) = true
  · rw [if_pos (by simpa [Bool.and_eq_true] using hcr)]
    simp [hcr]
  rw [if_neg (by simpa [Bool.and_eq_true] using hcr)]
  simp only [Bool.not_eq_true] at hcr
  simp only [hcr, Bool.not_false, Bool.true_and]
  by_cases hex : (jvTruthy sd.expires && jvLtNum sd.expires (nowMs / 1000)) = true
  · rw [if_pos (by simpa [Bool.and_eq_true] using hex)]
    simp [hex]
  rw [if_neg (by simpa [Bool.and_eq_true] using hex)]
  simp only [Bool.not_eq_true] at hex
  simp only [hex, Bool.not_false, Bool.true_and]
  by_cases hn : jvTruthy sd.nonce
  case neg => simp [hn]
  rw [if_neg (by simp [hn])]
  simp only [hn, Bool.true_and]
  by_cases hrep : nonceHas st.nonceTable sd.nonce
  · rw [if_pos (by simpa using hrep)]
    simp [hrep]
  rw [if_neg (by simpa using hrep)]
  simp only [Bool.not_eq_true] at hrep
  simp only [hrep, Bool.not_false, Bool.true_and]
  rcases hb : extractSignatureB64 sgv with _ | b
  · simp [hb]
  simp only [hb]
  rcases halg : sd.algorithm with a | n | _
  rotate_left
  · simp [halg]
  · simp [halg]
  simp only [halg]
  by_cases hrsa : lowerL a = ("rsa-pss-sha256").toList
  · rw [if_pos hrsa, if_pos (Or.inl hrsa)]
    by_cases hcv : crypto (lowerL a) k.public_key b
        (buildRFC9421SignatureString sd.params (mkRequestData req) siv) = true
    · rw [if_pos hcv]
      exact iff_of_true rfl hcv
    · rw [if_neg hcv]
      exact iff_of_false (by simp) hcv
  rw [if_neg hrsa]
  by_cases hed : lowerL a = ("ed25519").toList
  · rw [if_pos hed, if_pos (Or.inr hed)]
    by_cases hcv : crypto (lowerL a) k.public_key b
        (buildRFC9421SignatureString sd.params (mkRequestData req) siv) = true
    · rw [if_pos hcv]
      exact iff_of_true rfl hcv
    · rw [if_neg hcv]
      exact iff_of_false (by simp) hcv
  rw [if_neg hed, if_neg (by
    rintro (h | h)
    · exact hrsa h
    · exact hed h)]
  simp

/-- Full route characterisation: the request reaches an upstream exactly when
it misses the `/test-proxy` endpoint and is either non-gated or passes every
pipeline check. -/
theorem gateway_forward_iff (req : Request) (st : GwState) (nowMs : Nat)
    (fetch : FetchResult) (crypto : CryptoOracle) :
    ((gateway req st nowMs fetch crypto).outcome = .forward) ↔
      (testProxyHit req = false ∧
        (gatedPath req = false ∨ pipelineChecks req st nowMs fetch crypto = true)) := by
  unfold gateway
  by_cases ht : testProxyHit req = true
  · simp [ht]
  rw [if_neg ht]
  rw [Bool.not_eq_true] at ht
  by_cases hg : gatedPath req = true
  · rw [if_pos hg]
    by_cases hwh : hasWireHeaders req = true
    · rw [if_neg (by simp [hwh])]
      rw [verify_forward_iff _ _ _ _ _ hwh]
      simp [ht, hg]
    · rw [if_pos (by simp [hwh])]
      rw [Bool.not_eq_true] at hwh
      simp [ht, hg, pipelineChecks, hwh]
  · rw [if_neg hg]
    rw [Bool.not_eq_true] at hg
    simp [ht, hg]

/-- A gated request that passes every check before the algorithm dispatch
ends in the dispatch, with the nonce already recorded in the resulting
state. -/
theorem gateway_reaches_dispatch (req : Request) (st : GwState) (nowMs : Nat)
    (fetch : FetchResult) (crypto : CryptoOracle) (sd : SigData) (k : KeyRecord)
    (b : List Char)
    (ht : testProxyHit req = false)
    (hg : gatedPath req = true)
    (hw : hasWireHeaders req = true)
    (hp : envelopeOf req = some sd)
    (hv : validateKeyId sd.keyId = true)
    (hk : (getKeyById st.keyCache (keyStr sd.keyId) nowMs fetch).result = some k)
    (hact : k.is_active = JVal.str (("true").toList))
    (hcr : (jvTruthy sd.created && jvGtNum sd.created (nowMs / 1000 + 60)) = false)
    (hex : (jvTruthy sd.expires && jvLtNum sd.expires (nowMs / 1000)) = false)
    (hn : jvTruthy sd.nonce = true)
    (hrep : nonceHas st.nonceTable sd.nonce = false)
    (hb : extractSignatureB64 ((getHeader req (("signature").toList)).getD []) = some b) :
    gateway req st nowMs fetch crypto =
      dispatchResult crypto sd k b
        (buildRFC9421SignatureString sd.params (mkRequestData req)
          ((getHeader req (("signature-input").toList)).getD []))
        ⟨(sd.nonce, nowMs) :: st.nonceTable,
          (getKeyById st.keyCache (keyStr sd.keyId) nowMs fetch).cache⟩ := by
  have hw2 : optTruthy (getHeader req (("signature-input").toList)) = true ∧
      optTruthy (getHeader req (("signature").toList)) = true := by
    rw [hasWireHeaders, Bool.and_eq_true] at hw
    exact hw
  rcases hsi : getHeader req (("signature-input").toList) with _ | siv
  · rw [hsi] at hw2; simp [optTruthy] at hw2
  have hp' : parseRFC9421SignatureInput siv = some sd := by
    rw [envelopeOf, hsi] at hp; exact hp
  unfold gateway
  rw [if_neg (by simp [ht]), if_pos hg, if_neg (by simp [hw])]
  unfold verifySignature
  rw [hsi]
  simp only [hp']
  rw [if_neg (by simp [hv])]
  rw [if_neg (by
    rintro (h | h | h)
    · exact h (validateKeyId_truthy hv)
    · rw [hsi] at hw2
      exact h hw2.1
    · exact h hw2.2)]
  simp only [hk]
  rw [if_neg (not_not_intro hact)]
  rw [if_neg (by
    intro hh
    rw [hh.1, hh.2] at hcr
    simp at hcr)]
  rw [if_neg (by
    intro hh
    rw [hh.1, hh.2] at hex
    simp at hex)]
  rw [if_neg (by simp [hn])]
  rw [if_neg (by simp [hrep])]
  simp only [hb]
  unfold dispatchResult
  rcases halg : sd.algorithm with a | n | _
  · dsimp only
    by_cases hrsa : lowerL a = ("rsa-pss-sha256").toList
    · rw [if_pos hrsa, if_pos (Or.inl hrsa)]
    · rw [if_neg hrsa]
      by_cases hed : lowerL a = ("ed25519").toList
      · rw [if_pos hed, if_pos (Or.inr hed)]
      · rw [if_neg hed, if_neg (by
          rintro (h | h)
          · exact hrsa h
          · exact hed h)]
  · rfl
  · rfl

/-- A gated request whose key lookup yields `null` is answered 403 (with the
key cache already updated by the lookup). -/
theorem gateway_key_missing (req : Request) (st : GwState) (nowMs : Nat)
    (fetch : FetchResult) (crypto : CryptoOracle) (sd : SigData)
    (ht : testProxyHit req = false)
    (hg : gatedPath req = true)
    (hw : hasWireHeaders req = true)
    (hp : envelopeOf req = some sd)
    (hv : validateKeyId sd.keyId = true)
    (hk : (getKeyById st.keyCache (keyStr sd.keyId) nowMs fetch).result = none) :
    gateway req st nowMs fetch crypto =
      ⟨.respond 403,
        ⟨st.nonceTable, (getKeyById st.keyCache (keyStr sd.keyId) nowMs fetch).cache⟩⟩ := by
  have hw2 : optTruthy (getHeader req (("signature-input").toList)) = true ∧
      optTruthy (getHeader req (("signature").toList)) = true := by
    rw [hasWireHeaders, Bool.and_eq_true] at hw
    exact hw
  rcases hsi : getHeader req (("signature-input").toList) with _ | siv
  · rw [hsi] at hw2; simp [optTruthy] at hw2
  have hp' : parseRFC9421SignatureInput siv = some sd := by
    rw [envelopeOf, hsi] at hp; exact hp
  unfold gateway
  rw [if_neg (by simp [ht]), if_pos hg, if_neg (by simp [hw])]
  unfold verifySignature
  rw [hsi]
  simp only [hp']
  rw [if_neg (by simp [hv])]
  rw [if_neg (by
    rintro (h | h | h)
    · exact h (validateKeyId_truthy hv)
    · rw [hsi] at hw2
      exact h hw2.1
    · exact h hw2.2)]
  simp only [hk]

/-- Every failed key fetch — registry miss or transport failure alike —
produces `null` from `getKeyById` when no fresh cache entry shadows it. -/
theorem getKeyById_failure_result (cache : List (List Char × CacheEntry))
    (keyId : List Char) (nowMs : Nat) (fetch : FetchResult)
    (hf : fetch = .transportError ∨ ∃ s, fetch = .httpStatus s)
    (hfresh : ∀ e, cacheGet cache ((("key:").toList) ++ keyId) = some e →
      ¬ nowMs - e.timestamp < CACHE_TTL) :
    (getKeyById cache keyId nowMs fetch).result = none := by
  unfold getKeyById
  rcases hcg : cacheGet cache ((("key:").toList) ++ keyId) with _ | e
  · simp only [hcg]
    rcases hf with rfl | ⟨s, rfl⟩ <;> rfl
  · simp only [hcg]
    rw [if_neg (hfresh e hcg)]
    rcases hf with rfl | ⟨s, rfl⟩ <;> rfl

/-! ## Claims -/

/-- C1 (amended): with the sole exception of GET/HEAD requests to the
`/test-proxy` endpoint — which the gateway answers itself — a request is
handed to the upstream proxying exactly when its lowercased URL does not
start with `/product/`, or it is gated and every pipeline check (wire
headers, envelope parse, key-id validation, key lookup, key-active check,
temporal check, nonce presence and freshness, signature-format extraction,
and algorithm-dispatched cryptographic verification) succeeds. -/
theorem claim_c1_forward_iff (req : Request) (st : GwState) (nowMs : Nat)
    (fetch : FetchResult) (crypto : CryptoOracle) :
    ((gateway req st nowMs fetch crypto).outcome = .forward) ↔
      (testProxyHit req = false ∧
        (gatedPath req = false ∨ pipelineChecks req st nowMs fetch crypto = true)) :=
  gateway_forward_iff req st nowMs fetch crypto

/-- C1 counterexample: `GET /test-proxy` is not gated, yet the upstream
receives nothing — the gateway answers it directly with a 200 test page, so
"non-gated implies proxied" fails as stated. -/
theorem claim_c1_counterexample :
    gatedPath exReqTestProxy = false ∧
    (gateway exReqTestProxy exState0 0 .transportError exOracleTrue).outcome
      = .respond 200 ∧
    ¬ (gateway exReqTestProxy exState0 0 .transportError exOracleTrue).outcome
      = .forward := by
  decide

/-- C2 (amended): a gated request that reaches the algorithm dispatch with an
algorithm outside {rsa-pss-sha256, ed25519} is answered 400, and the nonce is
left recorded (spent) in the nonce table — the record happens before the
dispatch, so the table is *not* unchanged. -/
theorem claim_c2_unsupported_algorithm (req : Request) (st : GwState)
    (nowMs : Nat) (fetch : FetchResult) (crypto : CryptoOracle) (sd : SigData)
    (k : KeyRecord) (b : List Char) (a : List Char)
    (ht : testProxyHit req = false)
    (hg : gatedPath req = true)
    (hw : hasWireHeaders req = true)
    (hp : envelopeOf req = some sd)
    (hv : validateKeyId sd.keyId = true)
    (hk : (getKeyById st.keyCache (keyStr sd.keyId) nowMs fetch).result = some k)
    (hact : k.is_active = JVal.str (("true").toList))
    (hcr : (jvTruthy sd.created && jvGtNum sd.created (nowMs / 1000 + 60)) = false)
    (hex : (jvTruthy sd.expires && jvLtNum sd.expires (nowMs / 1000)) = false)
    (hn : jvTruthy sd.nonce = true)
    (hrep : nonceHas st.nonceTable sd.nonce = false)
    (hb : extractSignatureB64 ((getHeader req (("signature").toList)).getD []) = some b)
    (halg : sd.algorithm = JVal.str a)
    (hun : ¬ (lowerL a = ("rsa-pss-sha256").toList ∨ lowerL a = ("ed25519").toList)) :
    (gateway req st nowMs fetch crypto).outcome = .respond 400 ∧
    (gateway req st nowMs fetch crypto).state.nonceTable
      = (sd.nonce, nowMs) :: st.nonceTable := by
  rw [gateway_reaches_dispatch req st nowMs fetch crypto sd k b
    ht hg hw hp hv hk hact hcr hex hn hrep hb]
  unfold dispatchResult
  rw [halg]
  dsimp only
  rw [if_neg hun]
  exact ⟨rfl, rfl⟩

/-- C2 witness: the unsupported-algorithm fixture ends in a 400 with its
nonce recorded. -/
theorem claim_c2_witness :
    (gateway exReqHmac exState0 1000000 (.success exKeyEd) exOracleTrue).outcome
      = .respond 400 ∧
    (gateway exReqHmac exState0 1000000 (.success exKeyEd) exOracleTrue).state.nonceTable
      = [(JVal.str (("n-2").toList), 1000000)] :=
  claim_c2_unsupported_algorithm exReqHmac exState0 1000000 (.success exKeyEd)
    exOracleTrue exSdHmac exKeyEd (("QUJD").toList) (("hmac-sha256").toList)
    (by decide) (by decide) (by decide) (by decide) (by decide) (by decide)
    (by decide) (by decide) (by decide) (by decide) (by decide) (by decide)
    (by decide) (by decide)

/-- C2 counterexample: the claim asserts the nonce table is unchanged by an
unsupported-algorithm request; in fact the 400 response leaves the nonce
spent in the table. -/
theorem claim_c2_counterexample :
    (gateway exReqHmac exState0 1000000 (.success exKeyEd) exOracleTrue).outcome
      = .respond 400 ∧
    ¬ (gateway exReqHmac exState0 1000000 (.success exKeyEd) exOracleTrue).state.nonceTable
      = exState0.nonceTable ∧
    nonceHas
      (gateway exReqHmac exState0 1000000 (.success exKeyEd) exOracleTrue).state.nonceTable
      (JVal.str (("n-2").toList)) = true := by
  decide

/-- C3 (amended): `getKeyById` collapses every failure — registry 404,
other non-2xx, and transport error alike — to `null`, and the gateway then
answers 403 in all of these cases; no key-fetch failure produces a 500. -/
theorem claim_c3_keyfetch_failure (req : Request) (st : GwState) (nowMs : Nat)
    (crypto : CryptoOracle) (sd : SigData)
    (ht : testProxyHit req = false)
    (hg : gatedPath req = true)
    (hw : hasWireHeaders req = true)
    (hp : envelopeOf req = some sd)
    (hv : validateKeyId sd.keyId = true)
    (hfresh : ∀ e, cacheGet st.keyCache ((("key:").toList) ++ keyStr sd.keyId) = some e →
      ¬ nowMs - e.timestamp < CACHE_TTL) :
    (getKeyById st.keyCache (keyStr sd.keyId) nowMs .transportError).result = none ∧
    (gateway req st nowMs .transportError crypto).outcome = .respond 403 ∧
    (gateway req st nowMs (.httpStatus 404) crypto).outcome = .respond 403 := by
  refine ⟨getKeyById_failure_result _ _ _ _ (Or.inl rfl) hfresh, ?_, ?_⟩
  · rw [gateway_key_missing req st nowMs .transportError crypto sd ht hg hw hp hv
      (getKeyById_failure_result _ _ _ _ (Or.inl rfl) hfresh)]
  · rw [gateway_key_missing req st nowMs (.httpStatus 404) crypto sd ht hg hw hp hv
      (getKeyById_failure_result _ _ _ _ (Or.inr ⟨404, rfl⟩) hfresh)]

/-- C3 witness: with an empty cache, both a transport error and a registry
404 end in a 403. -/
theorem claim_c3_witness :
    (getKeyById exState0.keyCache (keyStr exSdEd3.keyId) 1000000 .transportError).result
      = none ∧
    (gateway exReqEd3 exState0 1000000 .transportError exOracleTrue).outcome
      = .respond 403 ∧
    (gateway exReqEd3 exState0 1000000 (.httpStatus 404) exOracleTrue).outcome
      = .respond 403 :=
  claim_c3_keyfetch_failure exReqEd3 exState0 1000000 exOracleTrue exSdEd3
    (by decide) (by decide) (by decide) (by decide) (by decide)
    (by intro e he; simp [exState0, cacheGet] at he)

/-- C3 counterexample: a transport error during the key fetch yields a 403,
not the 500 the claim requires. -/
theorem claim_c3_counterexample :
    (gateway exReqEd3 exState0 1000000 .transportError exOracleTrue).outcome
      = .respond 403 ∧
    ¬ (gateway exReqEd3 exState0 1000000 .transportError exOracleTrue).outcome
      = .respond 500 := by
  decide

/-- C10 (amended): a gated request that parses with *no* `alg` attribute and
passes the key lookup, key-active, temporal, nonce, *and signature-format*
checks is answered 500 — the dispatch dereferences the absent algorithm and
the TypeError is caught by the internal-error handler — with the nonce left
recorded. -/
theorem claim_c10_missing_algorithm (req : Request) (st : GwState)
    (nowMs : Nat) (fetch : FetchResult) (crypto : CryptoOracle) (sd : SigData)
    (k : KeyRecord) (b : List Char)
    (ht : testProxyHit req = false)
    (hg : gatedPath req = true)
    (hw : hasWireHeaders req = true)
    (hp : envelopeOf req = some sd)
    (hv : validateKeyId sd.keyId = true)
    (hk : (getKeyById st.keyCache (keyStr sd.keyId) nowMs fetch).result = some k)
    (hact : k.is_active = JVal.str (("true").toList))
    (hcr : (jvTruthy sd.created && jvGtNum sd.created (nowMs / 1000 + 60)) = false)
    (hex : (jvTruthy sd.expires && jvLtNum sd.expires (nowMs / 1000)) = false)
    (hn : jvTruthy sd.nonce = true)
    (hrep : nonceHas st.nonceTable sd.nonce = false)
    (hb : extractSignatureB64 ((getHeader req (("signature").toList)).getD []) = some b)
    (halg : sd.algorithm = JVal.undefined) :
    (gateway req st nowMs fetch crypto).outcome = .respond 500 ∧
    (gateway req st nowMs fetch crypto).state.nonceTable
      = (sd.nonce, nowMs) :: st.nonceTable := by
  rw [gateway_reaches_dispatch req st nowMs fetch crypto sd k b
    ht hg hw hp hv hk hact hcr hex hn hrep hb]
  unfold dispatchResult
  rw [halg]
  exact ⟨rfl, rfl⟩

/-- C10 witness: the no-`alg` fixture with a well-formed signature header is
answered 500. -/
theorem claim_c10_witness :
    (gateway exReqNoAlg exState0 1000000 (.success exKeyEd) exOracleTrue).outcome
      = .respond 500 ∧
    (gateway exReqNoAlg exState0 1000000 (.success exKeyEd) exOracleTrue).state.nonceTable
      = [(JVal.str (("n-10").toList), 1000000)] :=
  claim_c10_missing_algorithm exReqNoAlg exState0 1000000 (.success exKeyEd)
    exOracleTrue exSdNoAlg exKeyEd (("QUJD").toList)
    (by decide) (by decide) (by decide) (by decide) (by decide) (by decide)
    (by decide) (by decide) (by decide) (by decide) (by decide) (by decide)
    (by decide)

/-- C10 counterexample: a request satisfying every hypothesis the claim
lists — parse succeeds with no `alg`, key found and active, temporal and
nonce checks pass — but whose signature header is malformed is answered 403,
not 500: the signature-format check precedes the dispatch. -/
theorem claim_c10_counterexample :
    envelopeOf exReqNoAlgBadSig = some exSdNoAlg ∧
    exSdNoAlg.algorithm = JVal.undefined ∧
    validateKeyId exSdNoAlg.keyId = true ∧
    (getKeyById exState0.keyCache (keyStr exSdNoAlg.keyId) 1000000
      (.success exKeyEd)).result = some exKeyEd ∧
    exKeyEd.is_active = JVal.str (("true").toList) ∧
    (jvTruthy exSdNoAlg.created && jvGtNum exSdNoAlg.created 1060) = false ∧
    (jvTruthy exSdNoAlg.expires && jvLtNum exSdNoAlg.expires 1000) = false ∧
    jvTruthy exSdNoAlg.nonce = true ∧
    nonceHas exState0.nonceTable exSdNoAlg.nonce = false ∧
    (gateway exReqNoAlgBadSig exState0 1000000 (.success exKeyEd) exOracleTrue).outcome
      = .respond 403 ∧
    ¬ (gateway exReqNoAlgBadSig exState0 1000000 (.success exKeyEd) exOracleTrue).outcome
      = .respond 500 := by
  decide

/-- C4 (amended): the builder's default case reads `requestData[param]` — an
object with only the four own properties `authority`, `path`, `contentType`,
`host` (plus the `Object.prototype` members) — so every covered component
other than the four `switch` cases and those property names is silently
omitted, for every request, even when the identically named request header is
present. -/
theorem claim_c4_default_component (rd : RequestData) (p : List Char)
    (h : ¬ p ∈ ([("@authority").toList, ("@path").toList, ("content-type").toList,
      ("host").toList, ("authority").toList, ("path").toList,
      ("contentType").toList] ++ protoPropNames)) :
    componentLine rd p = none := by
  simp only [List.mem_append, List.mem_cons, List.not_mem_nil, or_false, not_or] at h
  obtain ⟨⟨h1, h2, h3, h4, h5, h6, h7⟩, hpr⟩ := h
  unfold componentLine
  rw [if_neg h1, if_neg h2, if_neg h3, if_neg h4]
  unfold rdLookup
  rw [if_neg h5, if_neg h6, if_neg h7, if_neg h4, if_neg hpr]
  simp [jvTruthy]

/-- C4 witness: the component `user-agent` is omitted for the fixture
request. -/
theorem claim_c4_witness :
    componentLine (mkRequestData exReqUA) (("user-agent").toList) = none :=
  claim_c4_default_component (mkRequestData exReqUA) (("user-agent").toList)
    (by decide)

/-- C4 counterexample: the request carries `user-agent: Mozilla/5.0`, the
claimed header-lookup semantics would produce a line, yet the builder omits
it — the default case never consults the request's headers. -/
theorem claim_c4_counterexample :
    getHeader exReqUA (("user-agent").toList) = some (("Mozilla/5.0").toList) ∧
    specHeaderComponentLine exReqUA (("user-agent").toList)
      = some (("\"user-agent\": Mozilla/5.0").toList) ∧
    componentLine (mkRequestData exReqUA) (("user-agent").toList) = none := by
  decide

theorem foldl_push_filterMap (rd : RequestData) :
    ∀ (l : List (List Char)) (acc : List (List Char)),
      l.foldl (pushComponent rd) acc = acc ++ l.filterMap (componentLine rd) := by
  intro l
  induction l with
  | nil => intro acc; simp
  | cons a l ih =>
    intro acc
    rw [List.foldl_cons, List.filterMap_cons]
    cases hf : componentLine rd a with
    | none =>
      rw [show pushComponent rd acc a = acc from by unfold pushComponent; rw [hf]]
      rw [ih]
    | some b =>
      rw [show pushComponent rd acc a = acc ++ [b] from by unfold pushComponent; rw [hf]]
      rw [ih]
      simp

/-- C7 (amended): the base string is the `\n`-join (no trailing newline) of
the lines of those covered components that resolve to a value, in envelope
order — unresolvable components are omitted — followed by exactly one final
`"@signature-params"` line whose raw expression is the header with a literal
leading `sig2=` stripped when present (and the unshortened header text
otherwise, which need not start at the opening parenthesis because the
envelope regex is unanchored). -/
theorem claim_c7_base_string_shape (params : List (List Char))
    (rd : RequestData) (si : List Char) :
    buildRFC9421SignatureString params rd si =
      List.intercalate ['\n']
        (params.filterMap (componentLine rd) ++ [sigParamsLine si]) := by
  unfold buildRFC9421SignatureString
  dsimp only
  rw [foldl_push_filterMap rd params []]
  simp

/-- C7 counterexample: for the mid-string-label fixture the envelope parses
with two covered components, but the base string has only two lines (one
component resolves, one is omitted) instead of the claimed three, and the raw
parameter expression does not start at the opening parenthesis. -/
theorem claim_c7_counterexample :
    (parseRFC9421SignatureInput exSiX).map SigData.params
      = some [("@authority").toList, ("foo").toList] ∧
    List.count '\n'
      (buildRFC9421SignatureString [("@authority").toList, ("foo").toList]
        (mkRequestData exReqX) exSiX) = 1 ∧
    ¬ (1 : Nat) = 2 ∧
    List.isPrefixOf ['('] (sigParamsRaw exSiX) = false := by
  decide

/-- C5 (amended): the temporal checks only bound `created` by `now + 60` and
`expires` from below by `now`, so an admitted gated request whose envelope
carries nonzero numeric `created` and `expires` satisfies
`created ≤ now + 60`, `now ≤ expires`, and hence `created ≤ expires + 60` —
but `created ≤ expires` itself is not enforced. -/
theorem claim_c5_temporal_bound (req : Request) (st : GwState) (nowMs : Nat)
    (fetch : FetchResult) (crypto : CryptoOracle) (sd : SigData) (c e : Nat)
    (hg : gatedPath req = true)
    (hfwd : (gateway req st nowMs fetch crypto).outcome = .forward)
    (hp : envelopeOf req = some sd)
    (hc : sd.created = JVal.num c) (he : sd.expires = JVal.num e)
    (hc0 : c ≠ 0) (he0 : e ≠ 0) :
    c ≤ nowMs / 1000 + 60 ∧ nowMs / 1000 ≤ e ∧ c ≤ e + 60 := by
  obtain ⟨-, hor⟩ := (gateway_forward_iff req st nowMs fetch crypto).mp hfwd
  rcases hor with hgf | hpc
  · rw [hg] at hgf
    exact Bool.noConfusion hgf
  unfold pipelineChecks at hpc
  rw [hp] at hpc
  rw [Bool.and_eq_true] at hpc
  obtain ⟨-, hpc⟩ := hpc
  rw [Bool.and_eq_true] at hpc
  obtain ⟨-, hpc⟩ := hpc
  rcases hk : (getKeyById st.keyCache (keyStr sd.keyId) nowMs fetch).result with _ | k
  · rw [hk] at hpc
    exact Bool.noConfusion hpc
  rw [hk] at hpc
  simp only [Bool.and_eq_true] at hpc
  obtain ⟨⟨⟨⟨⟨-, hcr⟩, hex⟩, -⟩, -⟩, -⟩ := hpc
  rw [Bool.not_eq_true'] at hcr hex
  rw [hc] at hcr
  rw [he] at hex
  have htr : jvTruthy (JVal.num c) = true := by
    simp [jvTruthy, hc0]
  have hte : jvTruthy (JVal.num e) = true := by
    simp [jvTruthy, he0]
  rw [htr] at hcr
  rw [hte] at hex
  simp only [Bool.true_and] at hcr hex
  have h1 : ¬ nowMs / 1000 + 60 < c := by
    intro hlt
    rw [jvGtNum] at hcr
    simp [hlt] at hcr
  have h2 : ¬ e < nowMs / 1000 := by
    intro hlt
    rw [jvLtNum] at hex
    simp [hlt] at hex
  omega

/-- C5 witness: an admitted fixture whose envelope has `created = 1060`,
`expires = 1000` at `now = 1000` satisfies the amended bounds. -/
theorem claim_c5_witness :
    1060 ≤ 1000000 / 1000 + 60 ∧ 1000000 / 1000 ≤ 1000 ∧ 1060 ≤ 1000 + 60 :=
  claim_c5_temporal_bound exReqC5 exState0 1000000 (.success exKeyEd)
    exOracleTrue exSdC5 1060 1000
    (by decide) (by decide) (by decide) (by decide) (by decide)
    (by decide) (by decide)

/-- C5 counterexample: the fixture is gated and admitted end to end, yet its
`created` (1060) exceeds its `expires` (1000): the envelope invariant
`created ≤ expires` is not enforced before admission. -/
theorem claim_c5_counterexample :
    gatedPath exReqC5 = true ∧
    (gateway exReqC5 exState0 1000000 (.success exKeyEd) exOracleTrue).outcome
      = .forward ∧
    envelopeOf exReqC5 = some exSdC5 ∧
    exSdC5.created = JVal.num 1060 ∧
    exSdC5.expires = JVal.num 1000 ∧
    ¬ (1060 : Nat) ≤ 1000 := by
  decide

/-- While the pair `(n, t0)` stays in the table — which every sweep at a time
within `t0 + NONCE_TTL` preserves — each further submission of `n` is a
replay. -/
theorem runNonceTrace_replay (n : JVal) (t0 : Nat) :
    ∀ (evs : List NonceEvent) (tbl : List (JVal × Nat)),
      (n, t0) ∈ tbl →
      (∀ t, NonceEvent.sweep t ∈ evs → t ≤ t0 + NONCE_TTL) →
      runNonceTrace n evs tbl = List.replicate (countSubmits evs) false := by
  intro evs
  induction evs with
  | nil => intro tbl _ _; rfl
  | cons ev evs ih =>
    intro tbl hmem hbound
    cases ev with
    | submit t =>
      have hhas : nonceHas tbl n = true := by
        unfold nonceHas
        rw [List.any_eq_true]
        exact ⟨(n, t0), hmem, by simp⟩
      unfold runNonceTrace checkAndRecord
      rw [if_pos hhas]
      show false :: runNonceTrace n evs tbl = _
      rw [ih tbl hmem (fun t' ht' => hbound t' (List.mem_cons_of_mem _ ht'))]
      simp [countSubmits, List.countP_cons, List.replicate_succ]
    | sweep t =>
      unfold runNonceTrace
      have hkeep : (n, t0) ∈ sweepNonces tbl t := by
        unfold sweepNonces
        rw [List.mem_filter]
        refine ⟨hmem, ?_⟩
        have hb := hbound t (by simp)
        simp only [decide_eq_true_eq]
        omega
      rw [ih _ hkeep (fun t' ht' => hbound t' (List.mem_cons_of_mem _ ht'))]
      simp [countSubmits, List.countP_cons]

/-- C6: for a nonce not yet in the table, the first submission is Fresh and
every later submission in a serial history whose sweeps stay within
`t0 + NONCE_TTL` is a Replay; moreover any nonce present in the table — even
with a timestamp older than `NONCE_TTL`, not yet swept — is treated as used
regardless of the current time. -/
theorem claim_c6_nonce_replay :
    (∀ (tbl : List (JVal × Nat)) (n : JVal) (t0 : Nat) (evs : List NonceEvent),
      nonceHas tbl n = false →
      (∀ t, NonceEvent.sweep t ∈ evs → t ≤ t0 + NONCE_TTL) →
      runNonceTrace n (NonceEvent.submit t0 :: evs) tbl =
        true :: List.replicate (countSubmits evs) false) ∧
    (∀ (tbl : List (JVal × Nat)) (n : JVal) (t nowMs : Nat),
      (n, t) ∈ tbl → (checkAndRecord tbl n nowMs).1 = false) := by
  constructor
  · intro tbl n t0 evs h0 hbound
    unfold runNonceTrace checkAndRecord
    rw [if_neg (by simp [h0])]
    show true :: runNonceTrace n evs ((n, t0) :: tbl) = _
    rw [runNonceTrace_replay n t0 evs ((n, t0) :: tbl) (List.mem_cons_self _ _) hbound]
  · intro tbl n t nowMs hmem
    have hhas : nonceHas tbl n = true := by
      unfold nonceHas
      rw [List.any_eq_true]
      exact ⟨(n, t), hmem, by simp⟩
    unfold checkAndRecord
    rw [if_pos hhas]

/-- C6 witness: a concrete serial history — a fresh first submission, a
replayed second, a sweep exactly at the TTL boundary that keeps the entry,
and a third submission still replayed — plus an expired-but-unswept entry
still treated as used. -/
theorem claim_c6_witness :
    runNonceTrace (JVal.str (("n-1").toList))
      [NonceEvent.submit 0, NonceEvent.submit 10, NonceEvent.sweep 3600000,
       NonceEvent.submit 3600000] [] = [true, false, false] ∧
    (checkAndRecord [(JVal.str (("n-1").toList), 0)]
      (JVal.str (("n-1").toList)) 9999999).1 = false := by
  constructor
  · have h := claim_c6_nonce_replay.1 [] (JVal.str (("n-1").toList)) 0
      [NonceEvent.submit 10, NonceEvent.sweep 3600000, NonceEvent.submit 3600000]
      (by decide)
      (by
        intro t ht
        simp at ht
        subst ht
        decide)
    exact h
  · exact claim_c6_nonce_replay.2 [(JVal.str (("n-1").toList), 0)]
      (JVal.str (("n-1").toList)) 0 9999999 (by decide)

theorem cacheGet_set (m : List (List Char × CacheEntry)) (k : List Char)
    (v : CacheEntry) : cacheGet (cacheSet m k v) k = some v := by
  unfold cacheGet cacheSet
  rw [List.find?_cons_of_pos _ (by simp)]
  rfl

theorem cacheGet_delete (m : List (List Char × CacheEntry)) (k : List Char) :
    cacheGet (cacheDelete m k) k = none := by
  induction m with
  | nil => rfl
  | cons a m ih =>
    unfold cacheDelete at ih ⊢
    rw [List.filter_cons]
    by_cases ha : a.1 = k
    · rw [if_neg (by simp [ha])]
      exact ih
    · rw [if_pos (by simp [ha])]
      unfold cacheGet
      rw [List.find?_cons_of_neg _ (by simp [ha])]
      exact ih

/-- C8: a cached key record is served only while `now` lies in
`[inserted_at, inserted_at + CACHE_TTL)` (given that the entry was inserted
no later than the access); a stale entry is evicted and a fresh fetch
performed; a successful fetch caches `{value, now}`; and a failed fetch —
404, other non-2xx, or transport error — leaves no cache entry. -/
theorem claim_c8_cache_staleness (cache : List (List Char × CacheEntry))
    (keyId : List Char) (nowMs : Nat) (fetch : FetchResult)
    (hmono : ∀ e, cacheGet cache ((("key:").toList) ++ keyId) = some e →
      e.timestamp ≤ nowMs) :
    ((getKeyById cache keyId nowMs fetch).usedCache = true ↔
      ∃ e, cacheGet cache ((("key:").toList) ++ keyId) = some e ∧
        e.timestamp ≤ nowMs ∧ nowMs < e.timestamp + CACHE_TTL) ∧
    (∀ e, cacheGet cache ((("key:").toList) ++ keyId) = some e →
      (getKeyById cache keyId nowMs fetch).usedCache = true →
      (getKeyById cache keyId nowMs fetch).result = some e.key) ∧
    ((getKeyById cache keyId nowMs fetch).usedCache = false →
      (∀ k, fetch = .success k →
        (getKeyById cache keyId nowMs fetch).result = some k ∧
        cacheGet (getKeyById cache keyId nowMs fetch).cache
          ((("key:").toList) ++ keyId) = some ⟨k, nowMs⟩) ∧
      ((fetch = .transportError ∨ ∃ s, fetch = .httpStatus s) →
        (getKeyById cache keyId nowMs fetch).result = none ∧
        cacheGet (getKeyById cache keyId nowMs fetch).cache
          ((("key:").toList) ++ keyId) = none)) := by
  unfold getKeyById
  rcases hcg : cacheGet cache ((("key:").toList) ++ keyId) with _ | e
  · simp only [hcg]
    refine ⟨?_, ?_, ?_⟩
    · constructor
      · intro hu
        rcases fetch with k | s | _ <;> exact Bool.noConfusion hu
      · rintro ⟨e, he, -⟩
        exact Option.noConfusion he
    · intro e he
      exact Option.noConfusion he
    · intro _
      constructor
      · rintro k rfl
        exact ⟨rfl, cacheGet_set cache _ _⟩
      · rintro (rfl | ⟨s, rfl⟩) <;> exact ⟨rfl, hcg⟩
  · simp only [hcg]
    by_cases hfr : nowMs - e.timestamp < CACHE_TTL
    · rw [if_pos hfr]
      have hts := hmono e hcg
      refine ⟨?_, ?_, ?_⟩
      · exact iff_of_true rfl ⟨e, rfl, hts, by omega⟩
      · intro e' he' _
        rw [show e' = e from Option.some_injective _ he'.symm]
      · intro hu
        exact Bool.noConfusion hu
    · rw [if_neg hfr]
      have hts := hmono e hcg
      refine ⟨?_, ?_, ?_⟩
      · constructor
        · intro hu
          rcases fetch with k | s | _ <;> exact Bool.noConfusion hu
        · rintro ⟨e', he', -, hlt⟩
          rw [show e' = e from Option.some_injective _ he'.symm] at hlt
          exact absurd (by omega : nowMs - e.timestamp < CACHE_TTL) hfr
      · intro e' he' hu
        rcases fetch with k | s | _ <;> exact Bool.noConfusion hu
      · intro _
        constructor
        · rintro k rfl
          exact ⟨rfl, cacheGet_set _ _ _⟩
        · rintro (rfl | ⟨s, rfl⟩) <;> exact ⟨rfl, cacheGet_delete cache _⟩

/-- C8 witness: a two-millisecond-old entry is served from cache with its
stored record. -/
theorem claim_c8_witness :
    (getKeyById [((("key:agent-key-1").toList), ⟨exKeyEd, 100⟩)]
      (("agent-key-1").toList) 102 .transportError).usedCache = true ∧
    (getKeyById [((("key:agent-key-1").toList), ⟨exKeyEd, 100⟩)]
      (("agent-key-1").toList) 102 .transportError).result = some exKeyEd := by
  have h := claim_c8_cache_staleness
    [((("key:agent-key-1").toList), ⟨exKeyEd, 100⟩)]
    (("agent-key-1").toList) 102 .transportError
    (by
      intro e he
      have he' : e = ⟨exKeyEd, 100⟩ := by
        have : some (⟨exKeyEd, 100⟩ : CacheEntry) = some e := by
          rw [← he]; decide
        exact (Option.some_injective _ this).symm
      rw [he']
      decide)
  have hu : (getKeyById [((("key:agent-key-1").toList), ⟨exKeyEd, 100⟩)]
      (("agent-key-1").toList) 102 .transportError).usedCache = true :=
    h.1.mpr ⟨⟨exKeyEd, 100⟩, by decide, by decide, by decide⟩
  exact ⟨hu, h.2.1 ⟨exKeyEd, 100⟩ (by decide) hu⟩

/-- C9 (amended): the sanitiser's output never contains a control character
or a line break (neither `\n`, `\r`, nor the Unicode line/paragraph
separators) and never exceeds 200 characters; the 200 bound is in characters
(`substring(0, 200)` counts UTF-16 units, not bytes), and not every
request-sourced interpolated value passes through the sanitiser (see the
counterexample). -/
theorem claim_c9_sanitizer (s : List Char) :
    (∀ c ∈ sanitizeLogOutput s,
      isControlChar c = false ∧ c ≠ '\n' ∧ c ≠ '\r' ∧
      c.toNat ≠ 0x2028 ∧ c.toNat ≠ 0x2029) ∧
    (sanitizeLogOutput s).length ≤ 200 := by
  refine ⟨?_, sanitize_length_le s⟩
  intro c hc
  rcases sanitize_mem hc with rfl | ⟨hcc, hws⟩
  · exact ⟨by decide, by decide, by decide, by decide, by decide⟩
  · refine ⟨hcc, ?_, ?_, ?_, ?_⟩
    · rintro rfl
      exact absurd hcc (by decide)
    · rintro rfl
      exact absurd hcc (by decide)
    · intro hh
      rw [isJsWs, hh] at hws
      simp at hws
    · intro hh
      rw [isJsWs, hh] at hws
      simp at hws

/-- C9 witness: the sanitiser's guarantees evaluated on a concrete string. -/
theorem claim_c9_witness :
    isControlChar 'h' = false ∧
    (sanitizeLogOutput (("hello").toList)).length ≤ 200 :=
  ⟨((claim_c9_sanitizer (("hello").toList)).1 'h' (by decide)).1,
   (claim_c9_sanitizer (("hello").toList)).2⟩

/-- C9 counterexample: the route-policy middleware interpolates the raw
comma-joined header-name list into its log line without the sanitiser; with
twelve 18-character client-chosen header names that value is 238 characters
long, which no sanitiser output can be — so not every request-sourced value
in a log line passes through the sanitiser. -/
theorem claim_c9_counterexample :
    (headersLogValue exHeaderNames).length = 238 ∧
    200 < 238 ∧
    ¬ ∃ u, sanitizeLogOutput u = headersLogValue exHeaderNames := by
  refine ⟨by decide, by decide, ?_⟩
  rintro ⟨u, hu⟩
  have h := sanitize_length_le u
  rw [hu] at h
  have he : (headersLogValue exHeaderNames).length = 238 := by decide
  rw [he] at h
  omega

end TapGateway
